import Mathlib

/-!
# QR Smart Log — attendance core, shallow embedding

Embedding of the attendance data model and operations of the qr-smart-log
repository: the SQL schema (students / classes / attendance_records with the
UNIQUE(student_id, class_id) constraint and ON DELETE CASCADE), the QR payload
encoders of `handleCreateStudent` / `handleCreateClass`, the scan handler
`handleScan` of the attendance scanner, and the per-class aggregation of
`fetchAnalytics`.

Strings are modelled as `List Char`; JavaScript `String.prototype.split(':')`
is modelled by `splitOnChar`; epoch timestamps (`Date.getTime()`, `Date.now()`)
are `Int` milliseconds; JavaScript number division in the lateness computation
is exact rational division (`ℚ`).
-/

/-- JavaScript `s.split(d)` for a single-character separator `d`, on strings
as `List Char`.  `"".split(d) = [""]`, `"a:b".split(":") = ["a","b"]`,
`":".split(":") = ["",""]`. -/
def splitOnChar (d : Char) : List Char → List (List Char)
  | [] => [[]]
  | c :: cs =>
    let r := splitOnChar d cs
    if c = d then [] :: r
    else (c :: r.headD []) :: r.tail

theorem splitOnChar_ne_nil (d : Char) (l : List Char) : splitOnChar d l ≠ [] := by
  cases l with
  | nil => simp [splitOnChar]
  | cons c cs =>
    simp only [splitOnChar]
    split <;> simp

/-- Splitting a separator-free string yields the one-element list. -/
theorem splitOnChar_of_not_mem (d : Char) (xs : List Char) (h : d ∉ xs) :
    splitOnChar d xs = [xs] := by
  induction xs with
  | nil => rfl
  | cons c cs ih =>
    have hcd : c ≠ d := fun hc => h (hc ▸ List.mem_cons_self c cs)
    have hcs : d ∉ cs := fun hm => h (List.mem_cons_of_mem c hm)
    simp [splitOnChar, hcd, ih hcs]

/-- The first separator of a string that starts with a separator-free segment
cuts off exactly that segment. -/
theorem splitOnChar_append (d : Char) (xs rest : List Char) (h : d ∉ xs) :
    splitOnChar d (xs ++ d :: rest) = xs :: splitOnChar d rest := by
  induction xs with
  | nil => simp [splitOnChar]
  | cons c cs ih =>
    have hcd : c ≠ d := fun hc => h (hc ▸ List.mem_cons_self c cs)
    have hcs : d ∉ cs := fun hm => h (List.mem_cons_of_mem c hm)
    have hne := splitOnChar_ne_nil d (cs ++ d :: rest)
    simp [splitOnChar, hcd, ih hcs]

/-! ## Data model (schema from the SQL migration) -/

/-- The `status` column: `CHECK (status IN ('present', 'late', 'absent'))`. -/
inductive Status where
  | present
  | late
  | absent
  deriving Repr, DecidableEq

/-- A row of `public.students`.  The surrogate UUID primary key is modelled as
a `Nat`; `student_id` is the human-readable TEXT code. -/
structure Student where
  id : Nat
  student_id : List Char
  first_name : List Char
  last_name : List Char
  qr_code : List Char
  deriving Repr, DecidableEq

/-- A row of `public.classes`. -/
structure ClassSession where
  id : Nat
  name : List Char
  date : List Char
  time : List Char
  max_attendees : Nat
  qr_code : List Char
  deriving Repr, DecidableEq

/-- A row of `public.attendance_records`: `student_id` / `class_id` are the
surrogate keys of the parent rows, `marked_at` is an epoch-millisecond
timestamp. -/
structure AttendanceRecord where
  id : Nat
  student_id : Nat
  class_id : Nat
  status : Status
  marked_at : Int
  deriving Repr, DecidableEq

/-- The persistent store: the three tables plus a counter supplying fresh
surrogate keys (`gen_random_uuid()`). -/
structure Store where
  students : List Student
  classes : List ClassSession
  attendance : List AttendanceRecord
  nextId : Nat
  deriving Repr, DecidableEq

/-- Why an insert into `attendance_records` can fail: the
`UNIQUE(student_id, class_id)` constraint, or a transport/infrastructure
failure of the store call. -/
inductive InsertError where
  | uniqueViolation
  | transport
  deriving Repr, DecidableEq

/-- Two attendance records cover the same (student, class) pair. -/
def samePair (a b : AttendanceRecord) : Prop :=
  a.student_id = b.student_id ∧ a.class_id = b.class_id

instance (a b : AttendanceRecord) : Decidable (samePair a b) := by
  unfold samePair; infer_instance

/-- Insert into `attendance_records`, enforcing the
`UNIQUE(student_id, class_id)` constraint of the schema: a row for the same
(student, class) pair is rejected and the store is left untouched. -/
def insertAttendance (s : Store) (r : AttendanceRecord) : Except InsertError Store :=
  if s.attendance.any (fun x => x.student_id == r.student_id && x.class_id == r.class_id) then
    .error .uniqueViolation
  else
    .ok { s with attendance := r :: s.attendance, nextId := s.nextId + 1 }

/-- The store state after an insert attempt: unchanged when the insert was
rejected. -/
def storeAfterInsert (s : Store) (r : AttendanceRecord) : Store :=
  match insertAttendance s r with
  | .ok s2 => s2
  | .error _ => s

/-- At most one attendance record per (student, class) pair in the store. -/
def noDupPairs (s : Store) : Prop :=
  s.attendance.Pairwise (fun a b => ¬ samePair a b)

instance (s : Store) : Decidable (noDupPairs s) := by
  unfold noDupPairs; infer_instance

/-- `handleDeleteStudent`: delete the `students` row by surrogate key; the
schema's `ON DELETE CASCADE` removes exactly that student's attendance
records. -/
def deleteStudent (s : Store) (sid : Nat) : Store :=
  { s with students := s.students.filter (fun st => !(st.id == sid)),
           attendance := s.attendance.filter (fun r => !(r.student_id == sid)) }

/-- Deleting a `classes` row by surrogate key; the schema's
`ON DELETE CASCADE` removes exactly that class's attendance records. -/
def deleteClass (s : Store) (cid : Nat) : Store :=
  { s with classes := s.classes.filter (fun c => !(c.id == cid)),
           attendance := s.attendance.filter (fun r => !(r.class_id == cid)) }

/-! ## QR payload encoding (handleCreateStudent / handleCreateClass) -/

/-- `handleCreateStudent`: `` `STUDENT:${studentId}:${Date.now()}` ``. -/
def studentQr (code ts : List Char) : List Char :=
  "STUDENT:".data ++ code ++ ':' :: ts

/-- `handleCreateClass`:
`` `CLASS:${newClass.name}:${newClass.date}:${newClass.time}:${Date.now()}` ``. -/
def classQr (name date time ts : List Char) : List Char :=
  "CLASS:".data ++ name ++ ':' :: date ++ ':' :: time ++ ':' :: ts

/-- `handleScan`'s student decode: `const [, studentId] = result.split(':')`
takes the segment after the first delimiter. -/
def decodeStudentCode (payload : List Char) : List Char :=
  (splitOnChar ':' payload).getD 1 []

/-! ## Lateness classification (handleScan lines 112–117) -/

/-- `const minutesLate = (now.getTime() - classDateTime.getTime()) / (1000 * 60)`:
exact division of the millisecond difference. -/
def minutesLate (classStartMs nowMs : Int) : ℚ :=
  ((nowMs - classStartMs : Int) : ℚ) / (1000 * 60)

/-- `const status = minutesLate > 15 ? 'late' : 'present'`. -/
def statusOf (classStartMs nowMs : Int) : Status :=
  if minutesLate classStartMs nowMs > 15 then .late else .present

/-! ## The scan handler (handleScan, attendance scanner) -/

/-- Outcome of one scan, mirroring the toasts of `handleScan`. -/
inductive ScanOutcome where
  | selectClassFirst
  | studentNotFound
  | alreadyMarked
  | marked (status : Status)
  | markFailed
  | classSelected (classId : Nat)
  | noOp
  deriving Repr, DecidableEq

/-- Lines 128–133 of the scanner: the insert error branch `if (error)` shows
the one generic "Failed to mark attendance" toast without inspecting the
error, so every insert failure maps to the same outcome. -/
def insertErrorOutcome : InsertError → ScanOutcome :=
  fun _ => .markFailed

/-- The student branch of `handleScan` after the payload has been decoded to
a student code.  `dateParse` models `new Date(`${date} ${time}`).getTime()`
(an external collaborator).  When the selected class is not found in the
cached list, `new Date("undefined undefined")` is an Invalid Date, the
elapsed-minutes value is NaN and `NaN > 15` is false, so the status falls
back to `present`.  `sCheck` is the store snapshot the lookups read;
`sIns` the store the insert hits (they differ when a concurrent scan
committed in between). -/
def scanStudent (dateParse : List Char → List Char → Int)
    (sCheck sIns : Store) (sel : Option Nat) (nowMs : Int)
    (code : List Char) : ScanOutcome × Store × Option Nat :=
  match sel with
  | none => (.selectClassFirst, sIns, sel)
  | some cid =>
    match sCheck.students.find? (fun st => st.student_id == code) with
    | none => (.studentNotFound, sIns, sel)
    | some student =>
      if sCheck.attendance.any
          (fun r => r.student_id == student.id && r.class_id == cid) then
        (.alreadyMarked, sIns, sel)
      else
        let status :=
          match sCheck.classes.find? (fun c => c.id == cid) with
          | none => Status.present
          | some ci => statusOf (dateParse ci.date ci.time) nowMs
        match insertAttendance sIns
            { id := sIns.nextId, student_id := student.id, class_id := cid,
              status := status, marked_at := nowMs } with
        | .ok s2 => (.marked status, s2, sel)
        | .error e => (insertErrorOutcome e, sIns, sel)

/-- `handleScan`, with the lookups reading snapshot `sCheck` and the insert
applied to `sIns` (equal in a race-free run).  Returns the outcome, the
resulting store, and the resulting selected class. -/
def handleScanRace (dateParse : List Char → List Char → Int)
    (sCheck sIns : Store) (sel : Option Nat) (nowMs : Int)
    (payload : List Char) : ScanOutcome × Store × Option Nat :=
  if ("STUDENT:".data).isPrefixOf payload then
    scanStudent dateParse sCheck sIns sel nowMs (decodeStudentCode payload)
  else if ("CLASS:".data).isPrefixOf payload then
    let parts := splitOnChar ':' payload
    let className := parts.getD 1 []
    let classDate := parts.getD 2 []
    let classTime := parts.getD 3 []
    match sCheck.classes.find? (fun c =>
        c.name == className && c.date == classDate && c.time == classTime) with
    | some ci => (.classSelected ci.id, sIns, some ci.id)
    | none => (.noOp, sIns, sel)
  else
    (.noOp, sIns, sel)

/-- `handleScan` in a race-free run: both the lookups and the insert see the
same store. -/
def handleScan (dateParse : List Char → List Char → Int)
    (s : Store) (sel : Option Nat) (nowMs : Int)
    (payload : List Char) : ScanOutcome × Store × Option Nat :=
  handleScanRace dateParse s s sel nowMs payload

/-! ## Analytics (fetchAnalytics, ClassAnalytics component) -/

/-- `const lateThreshold = new Date(classDateTime.getTime() + 10 * 60 * 1000)`
— the analytics-side threshold is 10 minutes. -/
def analyticsLateThresholdMs : Int := 10 * 60 * 1000

/-- `arrivalTime > lateThreshold` in the `forEach` of `fetchAnalytics`:
a record counts as a late arrival when its `marked_at` exceeds class start
by strictly more than the 10-minute analytics threshold. -/
def analyticsIsLate (classStartMs markedAtMs : Int) : Bool :=
  classStartMs + analyticsLateThresholdMs < markedAtMs

/-- Accumulator of the `forEach` over a class's attendance records. -/
structure ArrivalTotals where
  lateArrivals : Nat
  onTimeArrivals : Nat
  totalArrivalTime : Int
  deriving Repr, DecidableEq

/-- The body of the `forEach` of `fetchAnalytics`: a record increments the
late or on-time counter by the 10-minute test and adds its arrival offset to
the running total. -/
def tallyStep (classStartMs : Int) (acc : ArrivalTotals) (r : AttendanceRecord) : ArrivalTotals :=
  if analyticsIsLate classStartMs r.marked_at then
    { acc with lateArrivals := acc.lateArrivals + 1,
               totalArrivalTime := acc.totalArrivalTime + (r.marked_at - classStartMs) }
  else
    { acc with onTimeArrivals := acc.onTimeArrivals + 1,
               totalArrivalTime := acc.totalArrivalTime + (r.marked_at - classStartMs) }

/-- The `forEach` of `fetchAnalytics` over a class's attendance records. -/
def tallyArrivals (classStartMs : Int) (records : List AttendanceRecord) : ArrivalTotals :=
  records.foldl (tallyStep classStartMs) ⟨0, 0, 0⟩

/-- JavaScript `Math.round`: round half toward positive infinity. -/
def mathRound (q : ℚ) : Int := ⌊q + 1 / 2⌋

/-- `const attendanceRate = totalStudents ? (attendanceCount / totalStudents) * 100 : 0`
— a zero (or null) student count short-circuits to rate 0. -/
def rawAttendanceRate (attendanceCount totalStudents : Nat) : ℚ :=
  if totalStudents = 0 then 0
  else ((attendanceCount : ℚ) / (totalStudents : ℚ)) * 100

/-- `attendanceRate: Math.round(attendanceRate * 10) / 10` — the reported
per-class rate, rounded to one decimal. -/
def attendanceRate (attendanceCount totalStudents : Nat) : ℚ :=
  ((mathRound (rawAttendanceRate attendanceCount totalStudents * 10) : ℤ) : ℚ) / 10

/-! ## Helper lemmas -/

theorem isPrefixOf_append_self (l t : List Char) : l.isPrefixOf (l ++ t) = true := by
  induction l with
  | nil => simp [List.isPrefixOf]
  | cons c cs ih => simp [List.isPrefixOf, ih]

theorem samePair_comm (a b : AttendanceRecord) : samePair a b ↔ samePair b a := by
  unfold samePair
  constructor <;> exact fun h => ⟨h.1.symm, h.2.symm⟩

theorem any_samePair_iff (l : List AttendanceRecord) (r : AttendanceRecord) :
    (l.any (fun x => x.student_id == r.student_id && x.class_id == r.class_id) = true) ↔
      ∃ x ∈ l, samePair x r := by
  simp [List.any_eq_true, samePair]

/-- The student-payload decode depends only on the segment between the first
two delimiters: decoding `STUDENT:<code>:<anything>` recovers `<code>` when
the code is delimiter-free. -/
theorem decode_studentQr (code ts : List Char) (h : (':' : Char) ∉ code) :
    decodeStudentCode (studentQr code ts) = code := by
  have h1 : studentQr code ts = "STUDENT".data ++ ':' :: (code ++ ':' :: ts) := rfl
  rw [decodeStudentCode, h1, splitOnChar_append _ _ _ (by decide),
      splitOnChar_append _ _ _ h]
  rfl

/-! ## Claim theorems -/

/-- C1: for every student and class session, at most one attendance record
for the pair exists in the store at any time — the uniqueness invariant is
preserved by every successful insert — and an insert for a pair that already
has a record is rejected as a duplicate, leaving the existing record in place
and the row count unchanged. -/
theorem attendance_pair_unique (s : Store) (r : AttendanceRecord) (hs : noDupPairs s) :
    (∀ s2, insertAttendance s r = Except.ok s2 → noDupPairs s2) ∧
    ((∃ x ∈ s.attendance, samePair x r) →
      insertAttendance s r = Except.error InsertError.uniqueViolation ∧
      storeAfterInsert s r = s ∧
      (storeAfterInsert s r).attendance.length = s.attendance.length) := by
  constructor
  · intro s2 hok
    unfold insertAttendance at hok
    split at hok
    · exact absurd hok (by simp)
    · rename_i hcond
      have hs2 : s2 = { s with attendance := r :: s.attendance, nextId := s.nextId + 1 } :=
        (Except.ok.inj hok).symm
      subst hs2
      unfold noDupPairs at hs ⊢
      simp only [List.pairwise_cons]
      refine ⟨fun b hb hsp => ?_, hs⟩
      exact hcond ((any_samePair_iff s.attendance r).mpr ⟨b, hb, (samePair_comm r b).mp hsp⟩)
  · intro hdup
    have hany := (any_samePair_iff s.attendance r).mpr hdup
    unfold insertAttendance storeAfterInsert
    simp [insertAttendance, hany]

/-- Closed instance of `attendance_pair_unique`: a concrete one-record store,
a second insert for the same pair is rejected with the row count unchanged. -/
theorem attendance_pair_unique_witness :
    insertAttendance ⟨[], [], [⟨10, 1, 2, Status.present, 0⟩], 11⟩
        ⟨11, 1, 2, Status.late, 5⟩ = Except.error InsertError.uniqueViolation ∧
    storeAfterInsert ⟨[], [], [⟨10, 1, 2, Status.present, 0⟩], 11⟩
        ⟨11, 1, 2, Status.late, 5⟩ = ⟨[], [], [⟨10, 1, 2, Status.present, 0⟩], 11⟩ ∧
    (storeAfterInsert ⟨[], [], [⟨10, 1, 2, Status.present, 0⟩], 11⟩
        ⟨11, 1, 2, Status.late, 5⟩).attendance.length =
      (⟨[], [], [⟨10, 1, 2, Status.present, 0⟩], 11⟩ : Store).attendance.length :=
  (attendance_pair_unique ⟨[], [], [⟨10, 1, 2, Status.present, 0⟩], 11⟩
      ⟨11, 1, 2, Status.late, 5⟩ (by decide)).2
    ⟨⟨10, 1, 2, Status.present, 0⟩, by decide, by decide⟩

theorem statusOf_late_iff (a b : Int) : statusOf a b = Status.late ↔ minutesLate a b > 15 := by
  unfold statusOf
  split <;> simp_all

/-- C2: every scan accepted by the recording rule inserts status `late`
exactly when the elapsed minutes from the class start to the current time
exceed the 15-minute threshold, and `present` otherwise; with class start
09:00 (32400000 ms), a scan at 09:10 is `present`, at 09:20 `late`, and at
exactly 09:15 `present` (boundary on time). -/
theorem scan_status_threshold (dateParse : List Char → List Char → Int)
    (s : Store) (cid : Nat) (nowMs : Int) (payload : List Char)
    (st : Status) (s2 : Store) (sel2 : Option Nat) (ci : ClassSession)
    (h : handleScan dateParse s (some cid) nowMs payload =
      (ScanOutcome.marked st, s2, sel2))
    (hc : s.classes.find? (fun c => c.id == cid) = some ci) :
    (st = Status.late ↔ minutesLate (dateParse ci.date ci.time) nowMs > 15) ∧
    (∃ row : AttendanceRecord, s2.attendance = row :: s.attendance ∧
      row.status = st ∧ row.marked_at = nowMs) ∧
    statusOf 32400000 33000000 = Status.present ∧
    statusOf 32400000 33600000 = Status.late ∧
    statusOf 32400000 33300000 = Status.present := by
  have e1 : statusOf 32400000 33000000 = Status.present := by
    unfold statusOf
    rw [if_neg]
    norm_num [minutesLate]
  have e2 : statusOf 32400000 33600000 = Status.late := by
    unfold statusOf
    rw [if_pos]
    norm_num [minutesLate]
  have e3 : statusOf 32400000 33300000 = Status.present := by
    unfold statusOf
    rw [if_neg]
    norm_num [minutesLate]
  simp only [handleScan, handleScanRace] at h
  split at h
  · simp only [scanStudent] at h
    split at h
    · simp at h
    · rename_i student hstud
      split at h
      · simp at h
      · rename_i hnodup
        rw [hc] at h
        split at h
        · rename_i s3 heq
          simp only [Prod.mk.injEq, ScanOutcome.marked.injEq] at h
          obtain ⟨hst, hs2, hsel⟩ := h
          unfold insertAttendance at heq
          split at heq
          · simp at heq
          · have hs3 := Except.ok.inj heq
            subst hs3
            subst hs2
            refine ⟨hst ▸ statusOf_late_iff _ _, ⟨_, rfl, hst, rfl⟩, e1, e2, e3⟩
        · simp [insertErrorOutcome] at h
  · split at h
    · split at h <;> simp at h
    · simp at h

/-- A concrete environment: one student with code "A", one class "Lab" on
2024-03-01 at 09:00 whose parsed start is 32400000 ms. -/
def demoParse : List Char → List Char → Int := fun _ _ => 32400000

def demoStudent : Student := ⟨1, "A".data, "J".data, "D".data, "STUDENT:A:7".data⟩

def demoClass : ClassSession :=
  ⟨2, "Lab".data, "2024-03-01".data, "09:00".data, 50, "CLASS:Lab:2024-03-01:09:00:7".data⟩

def demoStore : Store := ⟨[demoStudent], [demoClass], [], 10⟩

/-- Closed instance of `scan_status_threshold`: a concrete scan at 09:10 of a
09:00 class is accepted with status `present`. -/
theorem scan_status_threshold_witness :
    (Status.present = Status.late ↔
      minutesLate (demoParse demoClass.date demoClass.time) 33000000 > 15) ∧
    (∃ row : AttendanceRecord,
      ({ demoStore with attendance := [⟨10, 1, 2, Status.present, 33000000⟩],
                        nextId := 11 } : Store).attendance = row :: demoStore.attendance ∧
      row.status = Status.present ∧ row.marked_at = 33000000) ∧
    statusOf 32400000 33000000 = Status.present ∧
    statusOf 32400000 33600000 = Status.late ∧
    statusOf 32400000 33300000 = Status.present :=
  scan_status_threshold demoParse demoStore 2 33000000 "STUDENT:A:123".data
    Status.present
    { demoStore with attendance := [⟨10, 1, 2, Status.present, 33000000⟩], nextId := 11 }
    (some 2) demoClass
    (by
      simp [handleScan, handleScanRace, scanStudent, decodeStudentCode, splitOnChar,
        insertAttendance, statusOf, minutesLate, demoStore, demoStudent, demoClass, demoParse]
      norm_num)
    (by decide)

theorem tally_foldl_counts (cs : Int) (rs : List AttendanceRecord) (acc : ArrivalTotals) :
    (rs.foldl (tallyStep cs) acc).lateArrivals =
      acc.lateArrivals + rs.countP (fun r => analyticsIsLate cs r.marked_at) ∧
    (rs.foldl (tallyStep cs) acc).onTimeArrivals =
      acc.onTimeArrivals + rs.countP (fun r => !(analyticsIsLate cs r.marked_at)) := by
  induction rs generalizing acc with
  | nil => simp
  | cons r rs ih =>
    simp only [List.foldl_cons, List.countP_cons]
    by_cases hr : analyticsIsLate cs r.marked_at
    · simp [tallyStep, hr, (ih _).1, (ih _).2]
      omega
    · simp [tallyStep, hr, (ih _).1, (ih _).2]
      omega

theorem analyticsIsLate_iff (cs m : Int) :
    analyticsIsLate cs m = true ↔ minutesLate cs m > 10 := by
  rw [analyticsIsLate, analyticsLateThresholdMs, minutesLate, gt_iff_lt,
    lt_div_iff₀ (by norm_num), decide_eq_true_eq]
  have hcast : ((m - cs : Int) : ℚ) = (m : ℚ) - (cs : ℚ) := by push_cast; ring
  rw [hcast]
  constructor
  · intro h
    have h2 : ((cs : ℚ) + 600000 < (m : ℚ)) := by exact_mod_cast h
    linarith
  · intro h
    have h2 : ((cs : ℚ) + 600000 < (m : ℚ)) := by linarith
    exact_mod_cast h2

/-- C3 counterexample: a record marked 12 minutes after class start is
classified `present` by the recording rule (12 ≤ 15) but counted as a late
arrival by the analytics aggregation (12 > 10) — the two thresholds differ. -/
theorem analytics_agreement_counterexample :
    statusOf 0 720000 = Status.present ∧
    analyticsIsLate 0 720000 = true ∧
    (tallyArrivals 0 [⟨0, 1, 2, Status.present, 720000⟩]).lateArrivals = 1 := by
  refine ⟨?_, by decide, by decide⟩
  unfold statusOf
  rw [if_neg]
  norm_num [minutesLate]

/-- C3 amended: the analytics aggregation counts a record as late exactly
when its elapsed time strictly exceeds 10 minutes (its own threshold), and
on time otherwise; it agrees with the recording rule's 15-minute
classification exactly on records whose elapsed time is at most 10 minutes
or more than 15 minutes. -/
theorem analytics_threshold_mismatch (classStartMs : Int)
    (rs : List AttendanceRecord) (r : AttendanceRecord) :
    (tallyArrivals classStartMs rs).lateArrivals =
      rs.countP (fun x => analyticsIsLate classStartMs x.marked_at) ∧
    (tallyArrivals classStartMs rs).onTimeArrivals =
      rs.countP (fun x => !(analyticsIsLate classStartMs x.marked_at)) ∧
    (analyticsIsLate classStartMs r.marked_at = true ↔
      minutesLate classStartMs r.marked_at > 10) ∧
    ((analyticsIsLate classStartMs r.marked_at = true ↔
        statusOf classStartMs r.marked_at = Status.late) ↔
      ¬(10 < minutesLate classStartMs r.marked_at ∧
        minutesLate classStartMs r.marked_at ≤ 15)) := by
  obtain ⟨h1, h2⟩ := tally_foldl_counts classStartMs rs ⟨0, 0, 0⟩
  refine ⟨by simpa [tallyArrivals] using h1, by simpa [tallyArrivals] using h2,
    analyticsIsLate_iff _ _, ?_⟩
  rw [analyticsIsLate_iff, statusOf_late_iff]
  constructor
  · rintro hiff ⟨h10, h15⟩
    exact absurd (hiff.mp h10) (not_lt.mpr h15)
  · intro hnot
    constructor
    · intro h10
      by_contra h15
      exact hnot ⟨h10, not_lt.mp fun hgt => h15 hgt⟩
    · intro h15
      linarith

/-- C4: the per-class attendance rate is the attendance count divided by the
global registered-student count, times 100, rounded to one decimal
(JavaScript `Math.round(x * 10) / 10`, within 1/20 of the exact rate); with
0 registered students the rate is 0 — the computation is total, with no
division by zero. -/
theorem attendance_rate_def (count total : Nat) :
    (total ≠ 0 →
      attendanceRate count total =
        ((mathRound ((count : ℚ) / (total : ℚ) * 100 * 10) : ℤ) : ℚ) / 10 ∧
      |attendanceRate count total - (count : ℚ) / (total : ℚ) * 100| ≤ 1 / 20) ∧
    attendanceRate count 0 = 0 := by
  constructor
  · intro ht
    have hraw : rawAttendanceRate count total = (count : ℚ) / (total : ℚ) * 100 := by
      rw [rawAttendanceRate, if_neg ht]
    refine ⟨by rw [attendanceRate, hraw], ?_⟩
    set q : ℚ := (count : ℚ) / (total : ℚ) * 100 with hq
    rw [attendanceRate, hraw, mathRound]
    have h1 : ((⌊q * 10 + 1 / 2⌋ : ℤ) : ℚ) ≤ q * 10 + 1 / 2 := Int.floor_le _
    have h2 : q * 10 + 1 / 2 < ((⌊q * 10 + 1 / 2⌋ : ℤ) : ℚ) + 1 := Int.lt_floor_add_one _
    rw [abs_le]
    constructor
    · linarith
    · linarith
  · rw [attendanceRate, rawAttendanceRate]
    have hm : mathRound
        ((if (0 : Nat) = 0 then (0 : ℚ) else ((count : ℚ) / ((0 : Nat) : ℚ)) * 100) * 10) = 0 := by
      rw [if_pos rfl, mathRound]
      norm_num
    rw [hm]
    norm_num

/-- Closed instance of `attendance_rate_def`: one attendee out of three
registered students gives a rate of 33.3, and a zero student count gives 0. -/
theorem attendance_rate_def_witness :
    (attendanceRate 1 3 =
        ((mathRound (((1 : Nat) : ℚ) / ((3 : Nat) : ℚ) * 100 * 10) : ℤ) : ℚ) / 10 ∧
      |attendanceRate 1 3 - ((1 : Nat) : ℚ) / ((3 : Nat) : ℚ) * 100| ≤ 1 / 20) ∧
    attendanceRate 1 0 = 0 :=
  ⟨(attendance_rate_def 1 3).1 (by norm_num), (attendance_rate_def 1 0).2⟩

/-- A record 12 minutes after a class start at epoch 0. -/
def c3row : AttendanceRecord := ⟨0, 1, 2, Status.present, 720000⟩

/-- Closed instance of `analytics_threshold_mismatch` at a singleton record
list. -/
theorem analytics_threshold_mismatch_witness :
    (tallyArrivals 0 [c3row]).lateArrivals =
      [c3row].countP (fun x => analyticsIsLate 0 x.marked_at) ∧
    (tallyArrivals 0 [c3row]).onTimeArrivals =
      [c3row].countP (fun x => !(analyticsIsLate 0 x.marked_at)) ∧
    (analyticsIsLate 0 c3row.marked_at = true ↔
      minutesLate 0 c3row.marked_at > 10) ∧
    ((analyticsIsLate 0 c3row.marked_at = true ↔
        statusOf 0 c3row.marked_at = Status.late) ↔
      ¬(10 < minutesLate 0 c3row.marked_at ∧ minutesLate 0 c3row.marked_at ≤ 15)) :=
  analytics_threshold_mismatch 0 [c3row] c3row

/-- C5 counterexample: in a race where the pre-check store snapshot has no
record for the pair but the insert-time store does, the uniqueness rejection
is surfaced as the generic `markFailed` outcome ("Failed to mark
attendance"), not as the `alreadyMarked` conflict outcome, and the error
branch maps a uniqueness violation and a transport error to the same
outcome. -/
theorem race_conflict_counterexample :
    handleScanRace demoParse demoStore
        { demoStore with attendance := [⟨10, 1, 2, Status.present, 0⟩] }
        (some 2) 33000000 "STUDENT:A:123".data =
      (ScanOutcome.markFailed,
       { demoStore with attendance := [⟨10, 1, 2, Status.present, 0⟩] },
       some 2) ∧
    ScanOutcome.markFailed ≠ ScanOutcome.alreadyMarked ∧
    insertErrorOutcome InsertError.uniqueViolation =
      insertErrorOutcome InsertError.transport := by
  refine ⟨?_, by decide, rfl⟩
  simp [handleScanRace, scanStudent, decodeStudentCode, splitOnChar,
    insertAttendance, insertErrorOutcome, demoStore, demoStudent, demoClass, demoParse]

/-- C5 amended: an insert rejected by the uniqueness constraint — the losing
side of a concurrent double scan — is surfaced as the generic
"Failed to mark attendance" outcome, the same outcome as for a transport
error (the error branch does not inspect the cause); only a duplicate found
by the pre-insert check is surfaced as the distinct "Already Marked"
conflict outcome.  In both failure cases the insert-side store is
unchanged. -/
theorem race_conflict_generic (dateParse : List Char → List Char → Int)
    (sCheck sIns : Store) (cid : Nat) (nowMs : Int) (payload : List Char)
    (student : Student)
    (hpre : ("STUDENT:".data).isPrefixOf payload = true)
    (hstud : sCheck.students.find?
      (fun st => st.student_id == decodeStudentCode payload) = some student) :
    (sCheck.attendance.any
        (fun r => r.student_id == student.id && r.class_id == cid) = false →
      sIns.attendance.any
        (fun x => x.student_id == student.id && x.class_id == cid) = true →
      handleScanRace dateParse sCheck sIns (some cid) nowMs payload =
        (ScanOutcome.markFailed, sIns, some cid)) ∧
    (sCheck.attendance.any
        (fun r => r.student_id == student.id && r.class_id == cid) = true →
      handleScanRace dateParse sCheck sIns (some cid) nowMs payload =
        (ScanOutcome.alreadyMarked, sIns, some cid)) ∧
    insertErrorOutcome InsertError.uniqueViolation =
      insertErrorOutcome InsertError.transport := by
  refine ⟨?_, ?_, rfl⟩
  · intro hnodup hdup
    rw [handleScanRace, if_pos hpre]
    simp only [scanStudent]
    rw [hstud]
    simp only [hnodup, Bool.false_eq_true, if_false]
    rw [insertAttendance]
    simp only [hdup, if_true]
    rfl
  · intro hdup
    rw [handleScanRace, if_pos hpre]
    simp only [scanStudent]
    rw [hstud]
    simp only [hdup, if_true]

/-- Closed instance of `race_conflict_generic` at the concrete race of
`race_conflict_counterexample`. -/
theorem race_conflict_generic_witness :
    (demoStore.attendance.any
        (fun r => r.student_id == demoStudent.id && r.class_id == 2) = false →
      ({ demoStore with
          attendance := [⟨10, 1, 2, Status.present, 0⟩] } : Store).attendance.any
        (fun x => x.student_id == demoStudent.id && x.class_id == 2) = true →
      handleScanRace demoParse demoStore
          { demoStore with attendance := [⟨10, 1, 2, Status.present, 0⟩] }
          (some 2) 33000000 "STUDENT:A:123".data =
        (ScanOutcome.markFailed,
         { demoStore with attendance := [⟨10, 1, 2, Status.present, 0⟩] },
         some 2)) ∧
    (demoStore.attendance.any
        (fun r => r.student_id == demoStudent.id && r.class_id == 2) = true →
      handleScanRace demoParse demoStore
          { demoStore with attendance := [⟨10, 1, 2, Status.present, 0⟩] }
          (some 2) 33000000 "STUDENT:A:123".data =
        (ScanOutcome.alreadyMarked,
         { demoStore with attendance := [⟨10, 1, 2, Status.present, 0⟩] },
         some 2)) ∧
    insertErrorOutcome InsertError.uniqueViolation =
      insertErrorOutcome InsertError.transport :=
  race_conflict_generic demoParse demoStore
    { demoStore with attendance := [⟨10, 1, 2, Status.present, 0⟩] }
    2 33000000 "STUDENT:A:123".data demoStudent (by decide) (by decide)

/-- C6: a student scan with no pre-selected class fails with the
"Please select a class first" outcome before any store access: nothing is
inserted, the store and the selection are unchanged. -/
theorem scan_requires_selected_class (dateParse : List Char → List Char → Int)
    (s : Store) (nowMs : Int) (payload : List Char)
    (hpre : ("STUDENT:".data).isPrefixOf payload = true) :
    handleScan dateParse s none nowMs payload =
      (ScanOutcome.selectClassFirst, s, none) := by
  rw [handleScan, handleScanRace, if_pos hpre]
  rfl

/-- Closed instance of `scan_requires_selected_class`. -/
theorem scan_requires_selected_class_witness :
    handleScan demoParse demoStore none 0 "STUDENT:A:1".data =
      (ScanOutcome.selectClassFirst, demoStore, none) :=
  scan_requires_selected_class demoParse demoStore 0 "STUDENT:A:1".data (by decide)

/-- C7: encoding a delimiter-free student code into the scan payload
`STUDENT:<code>:<timestamp>` and decoding by splitting on the delimiter
returns the original code. -/
theorem student_qr_roundtrip (code ts : List Char) (h : (':' : Char) ∉ code) :
    decodeStudentCode (studentQr code ts) = code :=
  decode_studentQr code ts h

/-- Closed instance of `student_qr_roundtrip` at the spec's example code. -/
theorem student_qr_roundtrip_witness :
    decodeStudentCode (studentQr "STU20240001".data "1700000000000".data) =
      "STU20240001".data :=
  student_qr_roundtrip "STU20240001".data "1700000000000".data (by decide)

/-- C8: deleting a class removes exactly the attendance records referencing
it, and deleting a student removes exactly that student's records — a record
survives the cascade iff it was present and references a different parent. -/
theorem cascade_delete_exact (s : Store) (cid sid : Nat) (r : AttendanceRecord) :
    (r ∈ (deleteClass s cid).attendance ↔ r ∈ s.attendance ∧ r.class_id ≠ cid) ∧
    (r ∈ (deleteStudent s sid).attendance ↔ r ∈ s.attendance ∧ r.student_id ≠ sid) := by
  simp [deleteClass, deleteStudent, List.mem_filter]

/-- A sample attendance record for the cascade-delete instance. -/
def c8row : AttendanceRecord := ⟨10, 1, 2, Status.present, 0⟩

/-- Closed instance of `cascade_delete_exact`. -/
theorem cascade_delete_exact_witness :
    (c8row ∈ (deleteClass demoStore 2).attendance ↔
      c8row ∈ demoStore.attendance ∧ c8row.class_id ≠ 2) ∧
    (c8row ∈ (deleteStudent demoStore 1).attendance ↔
      c8row ∈ demoStore.attendance ∧ c8row.student_id ≠ 1) :=
  cascade_delete_exact demoStore 2 1 c8row

/-- C9: a class QR payload `CLASS:<name>:<date>:<HH:MM>:<ts>` decodes, by
splitting on the delimiter, to a time field holding only the hour part `HH`;
since every stored class time contains the delimiter, scanning a class's own
payload matches no stored class and leaves the selection (and the store)
unchanged. -/
theorem class_qr_time_truncation (dateParse : List Char → List Char → Int)
    (s : Store) (sel : Option Nat) (nowMs : Int)
    (name date hh mm ts : List Char)
    (hn : (':' : Char) ∉ name) (hd : (':' : Char) ∉ date) (hhh : (':' : Char) ∉ hh)
    (hcls : ∀ c ∈ s.classes, (':' : Char) ∈ c.time) :
    (splitOnChar ':' (classQr name date (hh ++ ':' :: mm) ts)).getD 3 [] = hh ∧
    handleScan dateParse s sel nowMs (classQr name date (hh ++ ':' :: mm) ts) =
      (ScanOutcome.noOp, s, sel) := by
  have h1 : classQr name date (hh ++ ':' :: mm) ts =
      "CLASS".data ++ ':' ::
        (name ++ ':' :: (date ++ ':' :: (hh ++ ':' :: (mm ++ ':' :: ts)))) := by
    simp [classQr, List.append_assoc]
  have hsplit : splitOnChar ':' (classQr name date (hh ++ ':' :: mm) ts) =
      "CLASS".data :: name :: date :: hh :: splitOnChar ':' (mm ++ ':' :: ts) := by
    rw [h1, splitOnChar_append _ _ _ (by decide), splitOnChar_append _ _ _ hn,
        splitOnChar_append _ _ _ hd, splitOnChar_append _ _ _ hhh]
  have hpre1 : ("STUDENT:".data).isPrefixOf (classQr name date (hh ++ ':' :: mm) ts)
      = false := rfl
  have hpre2 : ("CLASS:".data).isPrefixOf (classQr name date (hh ++ ':' :: mm) ts)
      = true := isPrefixOf_append_self "CLASS:".data _
  have hfind : s.classes.find?
      (fun c => c.name == name && c.date == date && c.time == hh) = none := by
    rw [List.find?_eq_none]
    intro c hc
    simp only [Bool.and_eq_true, beq_iff_eq, not_and]
    intro _ htime
    exact absurd (htime ▸ hcls c hc) hhh
  constructor
  · rw [hsplit]
    rfl
  · rw [handleScan, handleScanRace, if_neg (by rw [hpre1]; simp), if_pos hpre2]
    simp only [hsplit, List.getD_cons_succ, List.getD_cons_zero]
    rw [hfind]

/-- Closed instance of `class_qr_time_truncation` at the demo class
"Lab", 2024-03-01, 09:00. -/
theorem class_qr_time_truncation_witness :
    (splitOnChar ':'
      (classQr "Lab".data "2024-03-01".data ("09".data ++ ':' :: "00".data)
        "7".data)).getD 3 [] = "09".data ∧
    handleScan demoParse demoStore none 0
        (classQr "Lab".data "2024-03-01".data ("09".data ++ ':' :: "00".data)
          "7".data) =
      (ScanOutcome.noOp, demoStore, none) :=
  class_qr_time_truncation demoParse demoStore none 0 "Lab".data "2024-03-01".data
    "09".data "00".data "7".data (by decide) (by decide) (by decide) (by decide)

/-- C10: two student payloads sharing the student-code segment but differing
after the second delimiter are indistinguishable to the scan handler: given
the same store, selection and current time, the outcome, resulting store and
selection are identical, because decoding reads only the segment between the
first two delimiters. -/
theorem scan_ignores_trailing_payload (dateParse : List Char → List Char → Int)
    (s : Store) (sel : Option Nat) (nowMs : Int) (code r1 r2 : List Char)
    (h : (':' : Char) ∉ code) :
    handleScan dateParse s sel nowMs (studentQr code r1) =
      handleScan dateParse s sel nowMs (studentQr code r2) := by
  have hp1 : ("STUDENT:".data).isPrefixOf (studentQr code r1) = true :=
    isPrefixOf_append_self "STUDENT:".data _
  have hp2 : ("STUDENT:".data).isPrefixOf (studentQr code r2) = true :=
    isPrefixOf_append_self "STUDENT:".data _
  rw [handleScan, handleScan, handleScanRace, handleScanRace, if_pos hp1, if_pos hp2,
    decode_studentQr code r1 h, decode_studentQr code r2 h]

/-- Closed instance of `scan_ignores_trailing_payload`: same code "A", one
payload with trailing "1", the other with trailing "2:xyz". -/
theorem scan_ignores_trailing_payload_witness :
    handleScan demoParse demoStore (some 2) 0 (studentQr "A".data "1".data) =
      handleScan demoParse demoStore (some 2) 0 (studentQr "A".data "2:xyz".data) :=
  scan_ignores_trailing_payload demoParse demoStore (some 2) 0 "A".data
    "1".data "2:xyz".data (by decide)
